import Mathlib

/-!
Verification of the NotionQM batch task synchronizer (src/NotionQM.py).

The script is shallowly embedded: JSON-like Python values become the
inductive `Json`, Python exceptions become `PyErr`, fallible code returns
`Except`, the remote Notion API is a record of response functions, and the
unbounded `while True` pagination loop is run on explicit fuel.
-/

set_option maxHeartbeats 1000000

namespace NotionQM

/-- A JSON-like Python value: strings, integers, booleans, None, lists and
(insertion-ordered, string-keyed) dictionaries. -/
inductive Json where
  | null
  | str (s : String)
  | num (n : Int)
  | bool (b : Bool)
  | arr (xs : List Json)
  | obj (kvs : List (String × Json))

/-- Python exceptions that the script can raise. -/
inductive PyErr where
  | keyError (k : String)
  | indexError
  | typeError
  | valueError (msg : String)

/-- The string Python interpolates for an exception (as in the final
`logger.error` f-strings). -/
def pyErrMsg : PyErr → String
  | .keyError k => "\x27" ++ k ++ "\x27"
  | .indexError => "list index out of range"
  | .typeError => "type error"
  | .valueError m => m

/-- How an f-string renders a `Json` value. The claims only ever render
strings, integers, booleans and None; composite values get a placeholder. -/
def fmt : Json → String
  | .str s => s
  | .num n => toString n
  | .bool true => "True"
  | .bool false => "False"
  | .null => "None"
  | .arr _ => "<list>"
  | .obj _ => "<dict>"

/-- First value bound to key `k` in an insertion-ordered dictionary. -/
def lookupJ : List (String × Json) → String → Option Json
  | [], _ => none
  | (k1, v) :: rest, k => if k1 = k then some v else lookupJ rest k

/-- Python `d[k]`: raises `KeyError` when absent, `TypeError` on a non-dict. -/
def dictGetE (j : Json) (k : String) : Except PyErr Json :=
  match j with
  | .obj kvs =>
    match lookupJ kvs k with
    | some v => .ok v
    | none => .error (.keyError k)
  | _ => .error .typeError

/-- Python `d.get(k, default)` (raises only when `d` is not a dict). -/
def jGetD (j : Json) (k : String) (d : Json) : Except PyErr Json :=
  match j with
  | .obj kvs => .ok ((lookupJ kvs k).getD d)
  | _ => .error .typeError

/-- Python `xs[i]` on a list: `IndexError` out of range, `TypeError` on a
non-list. -/
def jIndex (j : Json) (i : Nat) : Except PyErr Json :=
  match j with
  | .arr xs =>
    match xs.get? i with
    | some v => .ok v
    | none => .error .indexError
  | _ => .error .typeError

/-- Python `d[k] = v` on a dictionary: replace in place if the key exists,
otherwise append (insertion order preserved). -/
def setKey : List (String × Json) → String → Json → List (String × Json)
  | [], k, v => [(k, v)]
  | (k1, v1) :: rest, k, v =>
    if k1 = k then (k1, v) :: rest else (k1, v1) :: setKey rest k v

/-- Python `j[k1][k2] = v`: fetch the inner dictionary bound to `k1` and set
`k2` in it (the mutation in the multi-select branch of
`_build_frequency_filter`). -/
def setIn2 (j : Json) (k1 k2 : String) (v : Json) : Except PyErr Json :=
  match j with
  | .obj kvs =>
    match lookupJ kvs k1 with
    | some (.obj inner) => .ok (.obj (setKey kvs k1 (.obj (setKey inner k2 v))))
    | some _ => .error .typeError
    | none => .error (.keyError k1)
  | _ => .error .typeError

/-- Two-level read `j[k1][k2]` used by the loop's log lines
(`update_data["metadata"]["title"]` / `["url"]`). -/
def jGet2 (j : Json) (k1 k2 : String) : Except PyErr Json :=
  match dictGetE j k1 with
  | .error e => .error e
  | .ok m => dictGetE m k2

/-- Python `str.split(",")` over the character list: split at every comma,
keeping empty fragments (so the empty string yields `[""]`). -/
def splitCommaAux : List Char → List Char → List String
  | [], acc => [String.mk acc.reverse]
  | c :: rest, acc =>
    if c = ',' then String.mk acc.reverse :: splitCommaAux rest []
    else splitCommaAux rest (c :: acc)

/-- Python `str.split(",")`. -/
def pySplitComma (s : String) : List String := splitCommaAux s.toList []

/-- The whitespace characters Python `str.strip()` removes (the ones that can
occur in environment values). -/
def isSpaceChar (c : Char) : Bool :=
  c == ' ' || c == Char.ofNat 9 || c == Char.ofNat 10 || c == Char.ofNat 13

/-- Python `str.strip()`: drop leading and trailing whitespace. -/
def pyStrip (s : String) : String :=
  String.mk (((s.toList.dropWhile isSpaceChar).reverse.dropWhile isSpaceChar).reverse)

/-- The `_parse_list` helper: split on commas, strip whitespace, drop empties. -/
def parseList (value : Option String) : List String :=
  ((pySplitComma (value.getD "")).map pyStrip).filter (fun s => s ≠ "")

/-- The configuration dictionary built by `_load_config` (before validation,
so every scalar entry may be absent: `os.getenv` returns `None`). -/
structure Config where
  FREQUENCY_STATUS : List String
  STATUS_COLUMNS : List String
  TARGET_STATUS : Option String
  NOTION_API_KEY : Option String
  NOTION_DATABASE_ID : Option String
  TIME_COLUMN : Option String
  FREQUENCY_NAME : Option String

/-- Python truthiness of an optional string (None and "" are falsy). -/
def optTruthy : Option String → Bool
  | none => false
  | some s => s ≠ ""

/-- The `required_fields` table of `_load_config`, in source (insertion)
order, with the Chinese error message attached to each key. -/
def requiredFields : List (String × String) :=
  [("NOTION_API_KEY", "必须配置API密钥"),
   ("NOTION_DATABASE_ID", "必须配置数据库ID"),
   ("FREQUENCY_STATUS", "必须配置频率状态"),
   ("STATUS_COLUMNS", "必须配置状态列"),
   ("TARGET_STATUS", "必须配置目标状态")]

/-- Truthiness of `config.get(k)` for the required keys. -/
def Config.truthyAt (c : Config) : String → Bool
  | "NOTION_API_KEY" => optTruthy c.NOTION_API_KEY
  | "NOTION_DATABASE_ID" => optTruthy c.NOTION_DATABASE_ID
  | "FREQUENCY_STATUS" => !c.FREQUENCY_STATUS.isEmpty
  | "STATUS_COLUMNS" => !c.STATUS_COLUMNS.isEmpty
  | "TARGET_STATUS" => optTruthy c.TARGET_STATUS
  | _ => false

/-- The configuration dictionary assembled from the environment
(`os.getenv` reads, list parsing) before the missing-key check. -/
def configOf (env : String → Option String) : Config :=
  ⟨parseList (env "FREQUENCY_STATUS"),
   parseList (env "STATUS_COLUMNS"),
   env "TARGET_STATUS",
   env "NOTION_API_KEY",
   env "NOTION_DATABASE_ID",
   env "TIME_COLUMN",
   env "FREQUENCY_NAME"⟩

/-- The `_load_config` method: build the config dictionary, collect every
required key whose value is falsy, and raise a `ValueError` joining all of
their messages with newlines when any is missing. -/
def loadConfig (env : String → Option String) : Except String Config :=
  let config := configOf env
  let missing := requiredFields.filter (fun kv => !config.truthyAt kv.1)
  if missing.isEmpty then .ok config
  else .error (String.intercalate "\n" (missing.map Prod.snd))

/-- The `filter_type_map` of `_build_frequency_filter`: Notion property type
to comparison operator (the condition dictionary reuses the type string as its
key, and every `value_mapper` in the source is the identity). -/
def filterTypeMap : List (String × String) :=
  [("rich_text", "contains"), ("select", "equals"), ("multi_select", "contains")]

/-- Association lookup in a string-to-string table (Python `m[k]` guarded by
`k in m`). -/
def lookupStr : List (String × String) → String → Option String
  | [], _ => none
  | (k1, v) :: rest, k => if k1 = k then some v else lookupStr rest k

/-- The ValueError message for an unsupported frequency field type
(`list(filter_type_map.keys())` renders with single quotes). -/
def unsupportedMsg (t : String) : String :=
  "不支持的频率字段类型: " ++ t ++
    " (支持类型: [\x27rich_text\x27, \x27select\x27, \x27multi_select\x27])"

/-- One per-value filter condition (the body of the `for status in ...` loop):
the generically constructed dictionary, followed by the special-case
`filter_condition["multi_select"]["contains"] = status` assignment when the
property type is multi-select. -/
def freqCondition (fname ptype op status : String) : Except PyErr Json :=
  let c : Json := .obj [("property", .str fname), (ptype, .obj [(op, .str status)])]
  if ptype = "multi_select" then setIn2 c "multi_select" "contains" (.str status)
  else .ok c

/-- The `filters` list accumulated by the loop, in configuration order; the
first raised exception propagates. -/
def buildFilters (fname ptype op : String) : List String → Except PyErr (List Json)
  | [] => .ok []
  | s :: rest =>
    match freqCondition fname ptype op s with
    | .error e => .error e
    | .ok c =>
      match buildFilters fname ptype op rest with
      | .error e => .error e
      | .ok cs => .ok (c :: cs)

/-- The `_build_frequency_filter` method. `schema["properties"]` is looked up
first; subscripting it with an absent `FREQUENCY_NAME` (Python `None`, never a
key of a string-keyed JSON dictionary) raises `KeyError`. An unsupported type
raises the descriptive `ValueError`; the conditions are OR-wrapped only when
more than one frequency value is configured, and `filters[0]` on an empty
list raises `IndexError`. -/
def buildFrequencyFilter (cfg : Config) (schema : Json) : Except PyErr Json :=
  match dictGetE schema "properties" with
  | .error e => .error e
  | .ok props =>
    match cfg.FREQUENCY_NAME with
    | none => .error (.keyError "None")
    | some fname =>
      match dictGetE props fname with
      | .error e => .error e
      | .ok propInfo =>
        match dictGetE propInfo "type" with
        | .error e => .error e
        | .ok ptypeJ =>
          match ptypeJ with
          | .str pt =>
            match lookupStr filterTypeMap pt with
            | none => .error (.valueError (unsupportedMsg pt))
            | some op =>
              match buildFilters fname pt op cfg.FREQUENCY_STATUS with
              | .error e => .error e
              | .ok filters =>
                if 1 < filters.length then .ok (.obj [("or", .arr filters)])
                else
                  match filters with
                  | [] => .error .indexError
                  | fc :: _ => .ok fc
          | other => .error (.valueError (unsupportedMsg (fmt other)))

/-- How an f-string renders `config["TARGET_STATUS"]` (a string, or `None`
when unset). -/
def optFmt : Option String → String
  | some t => t
  | none => "None"

/-- The `for opt in options` search of `_get_status_id`: return the id of the
first option whose name equals the target, otherwise raise the ValueError
naming the column and the missing target value. Comparing a name against an
absent target (Python `None`) is always false. -/
def findStatusOption (tgt : Option String) (column : String) :
    List Json → Except PyErr Json
  | [] => .error (.valueError ("状态列 " ++ column ++ " 中未找到 " ++ optFmt tgt))
  | opt :: rest =>
    match dictGetE opt "name" with
    | .error e => .error e
    | .ok nm =>
      match nm, tgt with
      | .str s, some t =>
        if s = t then dictGetE opt "id" else findStatusOption tgt column rest
      | _, _ => findStatusOption tgt column rest

/-- The `_get_status_id` method (the `lru_cache` is semantically transparent:
the function is pure). -/
def getStatusId (schema : Json) (tgt : Option String) (column : String) :
    Except PyErr Json :=
  match dictGetE schema "properties" with
  | .error e => .error e
  | .ok props =>
    match dictGetE props column with
    | .error e => .error e
    | .ok colInfo =>
      match dictGetE colInfo "status" with
      | .error e => .error e
      | .ok st =>
        match dictGetE st "options" with
        | .error e => .error e
        | .ok optsJ =>
          match optsJ with
          | .arr opts => findStatusOption tgt column opts
          | _ => .error .typeError

/-- The `_current_timestamp` helper; the nondeterministic current instant is
passed in as the already-formatted ISO-8601 string `now`. -/
def currentTimestamp (now : String) : Json :=
  .obj [("start", .str now), ("time_zone", .str "Etc/GMT")]

/-- The `_get_page_title` method: `page["properties"].get("任务名称", {})`,
then `.get("title", [{}])[0].get("plain_text", "无标题")`. The `[{}]` default
applies only when the `"title"` key is absent; indexing `[0]` into a present
but empty title list raises `IndexError`. -/
def getPageTitle (page : Json) : Except PyErr Json :=
  match dictGetE page "properties" with
  | .error e => .error e
  | .ok props =>
    match jGetD props "任务名称" (.obj []) with
    | .error e => .error e
    | .ok titleProp =>
      match jGetD titleProp "title" (.arr [.obj []]) with
      | .error e => .error e
      | .ok titleVal =>
        match jIndex titleVal 0 with
        | .error e => .error e
        | .ok first => jGetD first "plain_text" (.str "无标题")

/-- The dict comprehension of `_prepare_update_data`: one
`col: {"status": {"id": ...}}` entry per configured status column, the first
raised exception propagating. -/
def statusProps (schema : Json) (tgt : Option String) :
    List String → Except PyErr (List (String × Json))
  | [] => .ok []
  | col :: rest =>
    match getStatusId schema tgt col with
    | .error e => .error e
    | .ok sid =>
      match statusProps schema tgt rest with
      | .error e => .error e
      | .ok ps => .ok ((col, Json.obj [("status", Json.obj [("id", sid)])]) :: ps)

/-- Collapse duplicate keys the way a Python dict comprehension does (later
values overwrite at the first key position). -/
def dictComp (kvs : List (String × Json)) : List (String × Json) :=
  kvs.foldl (fun acc kv => setKey acc kv.1 kv.2) []

/-- The `properties` dictionary of the update payload: the status-column
entries, then the optional timestamp column (`if self.config["TIME_COLUMN"]`
is truthy). -/
def updateProps (cfg : Config) (now : String)
    (entries : List (String × Json)) : List (String × Json) :=
  match cfg.TIME_COLUMN with
  | some tc =>
    if tc ≠ "" then setKey (dictComp entries) tc (.obj [("date", currentTimestamp now)])
    else dictComp entries
  | none => dictComp entries

/-- The `_prepare_update_data` method: the status-column properties, the
optional timestamp column, then the returned dictionary with `page_id`,
`properties` and the extra `metadata` entry (display title and URL), built in
source evaluation order (`page["id"]` before the title extraction). -/
def prepareUpdateData (cfg : Config) (schema : Json) (now : String)
    (page : Json) : Except PyErr Json :=
  match statusProps schema cfg.TARGET_STATUS cfg.STATUS_COLUMNS with
  | .error e => .error e
  | .ok entries =>
    match dictGetE page "id" with
    | .error e => .error e
    | .ok pid =>
      match getPageTitle page with
      | .error e => .error e
      | .ok title =>
        match jGetD page "url" (.str "") with
        | .error e => .error e
        | .ok url =>
          .ok (.obj [("page_id", pid),
                     ("properties", .obj (updateProps cfg now entries)),
                     ("metadata", .obj [("title", title), ("url", url)])])

/-- The `APIResponseError` raised by the Notion client; `body` is the detail
the script logs. -/
structure ApiErr where
  body : String

/-- One response of `databases.query`: the `results` page, the `has_more`
continuation flag, and the `next_cursor` (absent would make
`response["next_cursor"]` raise). -/
structure QueryResponse where
  results : List Json
  has_more : Bool
  next_cursor : Option String

/-- The remote Notion API, abstracted as response functions: `query` maps the
`start_cursor` keyword (absent on the first fetch) to a response, and
`update` maps the full splatted `pages.update(**update_data)` argument
dictionary to its outcome. -/
structure Remote where
  query : Option String → QueryResponse
  update : Json → Except ApiErr Unit

/-- Observable state of a finished run: the two counters, the cursor of every
query issued (in order), every argument dictionary passed to `pages.update`
(in order), and the log lines. -/
structure RunStats where
  total : Nat
  success : Nat
  fetches : List (Option String)
  updateCalls : List Json
  log : List String

/-- Outcome of `batch_process_tasks`: normal completion, an abort through the
outer `except Exception` handler (which logs and re-raises), or fuel
exhaustion of the modelled `while True` loop. -/
inductive RunResult where
  | finished (stats : RunStats)
  | aborted (e : PyErr) (fetches : List (Option String)) (updateCalls : List Json)
      (log : List String)
  | outOfFuel

/-- The final summary line: failures are reported as total minus success. -/
def summaryLine (total success : Nat) : String :=
  "处理完成 | 总数: " ++ toString total ++ " | 成功: " ++ toString success ++
    " | 失败: " ++ toString (total - success)

/-- The `for page in pages` body: prepare the update data (an exception here
escapes to the outer handler), call `pages.update`, and on success or
`APIResponseError` log the corresponding line and continue with the next
record. Returns the updated success counter, update-call trace and log, or
the escaping exception together with the state at that point. -/
def drainPage (upd : Json → Except ApiErr Unit) (prep : Json → Except PyErr Json) :
    List Json → Nat → List Json → List String →
    Except (PyErr × Nat × List Json × List String) (Nat × List Json × List String)
  | [], success, calls, log => .ok (success, calls, log)
  | page :: rest, success, calls, log =>
    match prep page with
    | .error e => .error (e, success, calls, log)
    | .ok ud =>
      let calls2 := calls ++ [ud]
      match upd ud with
      | .ok _ =>
        match jGet2 ud "metadata" "title" with
        | .error e => .error (e, success + 1, calls2, log)
        | .ok t =>
          drainPage upd prep rest (success + 1) calls2
            (log ++ ["更新成功: " ++ fmt t])
      | .error e =>
        match jGet2 ud "metadata" "url" with
        | .error e2 => .error (e2, success, calls2, log)
        | .ok u =>
          drainPage upd prep rest success calls2
            (log ++ ["更新失败 " ++ fmt u ++ ": " ++ e.body])

/-- The `while True` pagination loop of `batch_process_tasks`, on fuel: fetch
with the current cursor, add the page length to the total, drain the page,
then stop when `has_more` is falsy, otherwise continue from `next_cursor`.
An escaping exception is logged by the outer handler (`流程中断`) and
re-raised. -/
def batchLoop (remote : Remote) (prep : Json → Except PyErr Json) :
    Nat → Option String → Nat → Nat → List (Option String) → List Json →
    List String → RunResult
  | 0, _, _, _, _, _, _ => .outOfFuel
  | fuel + 1, cursor, success, total, fetches, calls, log =>
    let resp := remote.query cursor
    let fetches2 := fetches ++ [cursor]
    let total2 := total + resp.results.length
    match drainPage remote.update prep resp.results success calls log with
    | .error (e, _, calls2, log2) =>
      .aborted e fetches2 calls2 (log2 ++ ["流程中断: " ++ pyErrMsg e])
    | .ok (success2, calls2, log2) =>
      if resp.has_more then
        match resp.next_cursor with
        | some c => batchLoop remote prep fuel (some c) success2 total2 fetches2 calls2 log2
        | none =>
          .aborted (.keyError "next_cursor") fetches2 calls2
            (log2 ++ ["流程中断: " ++ pyErrMsg (.keyError "next_cursor")])
      else
        .finished ⟨total2, success2, fetches2, calls2,
          log2 ++ [summaryLine total2 success2]⟩

/-- The `batch_process_tasks` method: build the frequency filter (an
exception here is caught, logged and re-raised by the same outer handler),
then run the pagination loop with counters at zero and no cursor. -/
def batchProcessTasks (cfg : Config) (schema : Json) (remote : Remote)
    (now : String) (fuel : Nat) : RunResult :=
  match buildFrequencyFilter cfg schema with
  | .error e => .aborted e [] [] ["流程中断: " ++ pyErrMsg e]
  | .ok _ => batchLoop remote (prepareUpdateData cfg schema now) fuel none 0 0 [] [] []

/-- Outcome of the whole program (`__main__`): a configuration `ValueError`
raised in `__init__` terminates with exit code 1 before any remote
interaction; otherwise the batch run executes. -/
inductive ProgResult where
  | configError (msg : String)
  | run (r : RunResult)

/-- The program entry point: load and validate configuration, then run the
batch process against the remote (whose schema is the cached
`databases.retrieve` result). -/
def mainRun (env : String → Option String) (schema : Json) (remote : Remote)
    (now : String) (fuel : Nat) : ProgResult :=
  match loadConfig env with
  | .error msg => .configError msg
  | .ok cfg => .run (batchProcessTasks cfg schema remote now fuel)

/-- Whether an `Except` computation succeeded. -/
def exOk : Except ApiErr Unit → Bool
  | .ok _ => true
  | .error _ => false

/-- The title stored in a prepared payload's metadata (used by the success
log line). -/
def metaTitle (v : Json) : Json :=
  match jGet2 v "metadata" "title" with
  | .ok t => t
  | .error _ => .null

/-- The URL stored in a prepared payload's metadata (used by the failure log
line). -/
def metaUrl (v : Json) : Json :=
  match jGet2 v "metadata" "url" with
  | .ok u => u
  | .error _ => .null

/-- The record's own URL as the payload stores it: `page.get("url", "")`. -/
def pageUrl (page : Json) : Json :=
  match jGetD page "url" (.str "") with
  | .ok u => u
  | .error _ => .null

/-- The log line the loop emits for one record, as a function of that
record's prepared payload and update outcome. -/
def recLine (upd : Json → Except ApiErr Unit) (pl : Json → Json) (r : Json) :
    String :=
  match upd (pl r) with
  | .ok _ => "更新成功: " ++ fmt (metaTitle (pl r))
  | .error e => "更新失败 " ++ fmt (metaUrl (pl r)) ++ ": " ++ e.body

/-- The generically constructed per-value condition dictionary of the filter
builder: property name, then the type-keyed operator clause. -/
def condShape (fname ptype op v : String) : Json :=
  .obj [("property", .str fname), (ptype, .obj [(op, .str v)])]

/-- Modelled from the spec: the intended final multi-choice condition shape
(property name → multi-choice → contains → value), the contract the spec
fixes for multi-select filters independently of the source's intermediate
construction. -/
def multiSelectShape (fname v : String) : Json :=
  .obj [("property", .str fname), ("multi_select", .obj [("contains", .str v)])]

/-- A status option dictionary holding the given (name, id) pair. -/
def optJson (p : String × String) : Json :=
  .obj [("name", .str p.1), ("id", .str p.2)]

/-- Total read of an `Except` with a default (used to name concrete prepared
payloads in witnesses). -/
def exceptD (x : Except PyErr Json) (d : Json) : Json :=
  match x with
  | .ok v => v
  | .error _ => d

/-- Fixture: a configuration with two frequency values and one status column. -/
def cfgTwoValues : Config :=
  ⟨["A", "B"], ["S"], some "Done", some "k", some "db", none, some "freq"⟩

/-- Fixture: a schema whose frequency field is text-typed. -/
def schemaRichText : Json :=
  .obj [("properties", .obj [("freq", .obj [("type", .str "rich_text")])])]

/-- Fixture: a schema whose frequency field has the unsupported type `date`. -/
def schemaDateType : Json :=
  .obj [("properties", .obj [("freq", .obj [("type", .str "date")])])]

/-- Fixture: a schema with one status column `S` holding two options. -/
def schemaStatusCol : Json :=
  .obj [("properties", .obj [("S", .obj [("status", .obj [("options",
    .arr [optJson ("Todo", "id0"), optJson ("Done", "id1")])])])])]

/-- Fixture: a schema carrying both a single-choice frequency field and the
status column `S`. -/
def schemaFull : Json :=
  .obj [("properties", .obj [
    ("freq", .obj [("type", .str "select")]),
    ("S", .obj [("status", .obj [("options", .arr [optJson ("Done", "id1")])])])])]

/-- Fixture: a validated-looking configuration matching `schemaFull`. -/
def cfgFull : Config :=
  ⟨["每日"], ["S"], some "Done", some "k", some "db", none, some "freq"⟩

/-- Fixture: a record whose update will succeed. -/
def pageGood : Json :=
  .obj [("id", .str "p1"), ("url", .str "https://x/p1"),
        ("properties", .obj [("任务名称",
          .obj [("title", .arr [.obj [("plain_text", .str "任务一")]])])])]

/-- Fixture: a record whose update the remote will reject. -/
def pageBad : Json :=
  .obj [("id", .str "p2"), ("url", .str "https://x/p2"),
        ("properties", .obj [("任务名称",
          .obj [("title", .arr [.obj [("plain_text", .str "任务二")]])])])]

/-- Fixture: the prepared payload of a record under `cfgFull`/`schemaFull`. -/
def plFull : Json → Json :=
  fun r => exceptD (prepareUpdateData cfgFull schemaFull "T0" r) .null

/-- Fixture: an update outcome function rejecting exactly the record `p2`. -/
def updFull : Json → Except ApiErr Unit := fun ud =>
  match dictGetE ud "page_id" with
  | .ok (.str "p2") => .error ⟨"boom"⟩
  | _ => .ok ()

/-- Fixture: a remote returning one page of two records, rejecting `p2`. -/
def remoteTwoRecords : Remote :=
  ⟨fun _ => ⟨[pageGood, pageBad], false, none⟩, updFull⟩

/-- Fixture: a remote with a 100-record first page continued at cursor `C1`
and a 37-record final page. -/
def remotePaged : Remote :=
  ⟨fun cur =>
    match cur with
    | none => ⟨List.replicate 100 pageGood, true, some "C1"⟩
    | some _ => ⟨List.replicate 37 pageGood, false, none⟩,
   fun _ => .ok ()⟩

/-- Fixture: an environment defining nothing. -/
def envEmpty : String → Option String := fun _ => none

/-- Fixture: an environment defining every required setting but omitting the
frequency field name. -/
def envOmit : String → Option String := fun k =>
  if k = "NOTION_API_KEY" then some "secret"
  else if k = "NOTION_DATABASE_ID" then some "db1"
  else if k = "FREQUENCY_STATUS" then some "每日"
  else if k = "STATUS_COLUMNS" then some "状态A"
  else if k = "TARGET_STATUS" then some "完成"
  else none

/-- Fixture: a schema with an empty property table. -/
def schemaTiny : Json := .obj [("properties", .obj [])]

/-- Fixture: a remote that returns one empty final page and accepts every
update. -/
def remoteIdle : Remote := ⟨fun _ => ⟨[], false, none⟩, fun _ => .ok ()⟩

/-- Fixture: a record whose title property is present but whose title content
is the empty list. -/
def pageEmptyTitle : Json :=
  .obj [("id", .str "p1"), ("url", .str "u1"),
        ("properties", .obj [("任务名称", .obj [("title", .arr [])])])]

/-- Fixture: a configuration with no status columns, matching
`schemaFreqSelect`. -/
def cfgEmptyTitle : Config :=
  ⟨["每日"], [], some "完成", some "k", some "db", none, some "频率"⟩

/-- Fixture: a schema whose frequency field `频率` is single-choice. -/
def schemaFreqSelect : Json :=
  .obj [("properties", .obj [("频率", .obj [("type", .str "select")])])]

/-- Fixture: a remote returning a single final page containing only the
empty-titled record. -/
def remoteOnePage : Remote :=
  ⟨fun _ => ⟨[pageEmptyTitle], false, none⟩, fun _ => .ok ()⟩

/-! Helper lemmas about the filter builder. -/

theorem lookupStr_cases (pt op : String) (h : lookupStr filterTypeMap pt = some op) :
    pt = "rich_text" ∧ op = "contains" ∨ pt = "select" ∧ op = "equals" ∨
      pt = "multi_select" ∧ op = "contains" := by
  simp only [filterTypeMap, lookupStr] at h
  split_ifs at h with h1 h2 h3
  · exact Or.inl ⟨h1.symm, (Option.some.inj h).symm⟩
  · exact Or.inr (Or.inl ⟨h2.symm, (Option.some.inj h).symm⟩)
  · exact Or.inr (Or.inr ⟨h3.symm, (Option.some.inj h).symm⟩)

theorem freqCondition_eq (fname pt op v : String)
    (h : lookupStr filterTypeMap pt = some op) :
    freqCondition fname pt op v = .ok (condShape fname pt op v) := by
  rcases lookupStr_cases pt op h with ⟨h1, h2⟩ | ⟨h1, h2⟩ | ⟨h1, h2⟩ <;>
    subst h1 <;> subst h2 <;> rfl

theorem buildFilters_eq (fname pt op : String)
    (h : lookupStr filterTypeMap pt = some op) (vs : List String) :
    buildFilters fname pt op vs = .ok (vs.map (condShape fname pt op)) := by
  induction vs with
  | nil => rfl
  | cons v rest ih =>
    simp only [buildFilters, freqCondition_eq fname pt op v h, ih, List.map_cons]

/-- C4: for a multi-choice frequency field and every configured frequency
value, the condition produced after the post-construction mutation of the
condition dictionary equals the intended final multi-choice shape (property
name → multi-choice → contains → value); the extra rekeying step leaves the
generically constructed condition unchanged. -/
theorem multi_select_rekey_noop (fname v : String) :
    freqCondition fname "multi_select" "contains" v =
        .ok (condShape fname "multi_select" "contains" v) ∧
    setIn2 (condShape fname "multi_select" "contains" v) "multi_select"
        "contains" (.str v) = .ok (condShape fname "multi_select" "contains" v) ∧
    condShape fname "multi_select" "contains" v = multiSelectShape fname v :=
  ⟨rfl, rfl, rfl⟩

/-- C5: when the configured frequency field's declared type is not one of the
supported types, the filter builder raises a `ValueError` whose message names
the offending type and lists the supported types. -/
theorem unsupported_type_error (cfg : Config) (schema props propInfo : Json)
    (fname t : String)
    (hname : cfg.FREQUENCY_NAME = some fname)
    (hprops : dictGetE schema "properties" = .ok props)
    (hinfo : dictGetE props fname = .ok propInfo)
    (htype : dictGetE propInfo "type" = .ok (.str t))
    (hop : lookupStr filterTypeMap t = none) :
    buildFrequencyFilter cfg schema =
      .error (.valueError ("不支持的频率字段类型: " ++ t ++
        " (支持类型: [\x27rich_text\x27, \x27select\x27, \x27multi_select\x27])")) := by
  simp only [buildFrequencyFilter, hprops, hname, hinfo, htype, hop, unsupportedMsg]

/-- Closed instance of `unsupported_type_error` at the `date`-typed fixture
schema. -/
theorem unsupported_type_error_witness :
    lookupStr filterTypeMap "date" = none ∧
    buildFrequencyFilter cfgTwoValues schemaDateType =
      .error (.valueError ("不支持的频率字段类型: date" ++
        " (支持类型: [\x27rich_text\x27, \x27select\x27, \x27multi_select\x27])")) :=
  ⟨rfl, unsupported_type_error cfgTwoValues schemaDateType _ _ "freq" "date"
    rfl rfl rfl rfl rfl⟩

/-! Helper lemma for status-id resolution. -/

theorem findStatusOption_pairs (target column : String)
    (opts : List (String × String)) :
    findStatusOption (some target) column (opts.map optJson) =
      match opts.find? (fun p => p.1 == target) with
      | some p => .ok (.str p.2)
      | none => .error (.valueError ("状态列 " ++ column ++ " 中未找到 " ++ target)) := by
  induction opts with
  | nil => rfl
  | cons p rest ih =>
    have hd : dictGetE (optJson p) "name" = .ok (.str p.1) := rfl
    simp only [List.map_cons, findStatusOption, hd]
    by_cases hp : p.1 = target
    · have hb : (p.1 == target) = true := beq_iff_eq.2 hp
      simp only [List.find?, hb, if_pos hp]
      rfl
    · have hb : (p.1 == target) = false := beq_eq_false_iff_ne.2 hp
      simp only [List.find?, hb, if_neg hp, ih]

/-- C6: resolving the configured target status over a status field's declared
(name, id) options returns the id of the first option whose name equals the
target when one exists, and otherwise raises the error naming the field and
the missing target value. -/
theorem status_id_resolution (schema props colInfo st : Json)
    (column target : String) (opts : List (String × String))
    (hprops : dictGetE schema "properties" = .ok props)
    (hcol : dictGetE props column = .ok colInfo)
    (hst : dictGetE colInfo "status" = .ok st)
    (hopts : dictGetE st "options" = .ok (.arr (opts.map optJson))) :
    getStatusId schema (some target) column =
      match opts.find? (fun p => p.1 == target) with
      | some p => .ok (.str p.2)
      | none => .error (.valueError ("状态列 " ++ column ++ " 中未找到 " ++ target)) := by
  simp only [getStatusId, hprops, hcol, hst, hopts]
  exact findStatusOption_pairs target column opts

/-- Closed instance of `status_id_resolution` at the two-option fixture, in
both the found and the missing case. -/
theorem status_id_resolution_witness :
    dictGetE schemaStatusCol "properties" =
      .ok (.obj [("S", .obj [("status", .obj [("options",
        .arr [optJson ("Todo", "id0"), optJson ("Done", "id1")])])])]) ∧
    getStatusId schemaStatusCol (some "Done") "S" = .ok (.str "id1") ∧
    getStatusId schemaStatusCol (some "Gone") "S" =
      .error (.valueError "状态列 S 中未找到 Gone") :=
  ⟨rfl,
   status_id_resolution schemaStatusCol _ _ _ "S" "Done"
     [("Todo", "id0"), ("Done", "id1")] rfl rfl rfl rfl,
   status_id_resolution schemaStatusCol _ _ _ "S" "Gone"
     [("Todo", "id0"), ("Done", "id1")] rfl rfl rfl rfl⟩

/-- C3: for a supported frequency field type the filter builder produces one
type-shaped match condition per configured frequency value; with more than
one value they are OR-combined, with exactly one the bare condition is
returned; a text-typed field uses the contains operator and a single-choice
field uses equality. -/
theorem frequency_filter_shape (cfg : Config) (schema props propInfo : Json)
    (fname pt op : String) (vs : List String)
    (hname : cfg.FREQUENCY_NAME = some fname)
    (hprops : dictGetE schema "properties" = .ok props)
    (hinfo : dictGetE props fname = .ok propInfo)
    (htype : dictGetE propInfo "type" = .ok (.str pt))
    (hop : lookupStr filterTypeMap pt = some op)
    (hvs : cfg.FREQUENCY_STATUS = vs) :
    (∀ v, vs = [v] →
      buildFrequencyFilter cfg schema = .ok (condShape fname pt op v)) ∧
    (2 ≤ vs.length →
      buildFrequencyFilter cfg schema =
        .ok (.obj [("or", .arr (vs.map (condShape fname pt op)))])) ∧
    (pt = "rich_text" → op = "contains") ∧
    (pt = "select" → op = "equals") := by
  have hbf : ∀ ws : List String, cfg.FREQUENCY_STATUS = ws →
      buildFrequencyFilter cfg schema =
        (if 1 < ws.length then
          .ok (.obj [("or", .arr (ws.map (condShape fname pt op)))])
         else
          match ws.map (condShape fname pt op) with
          | [] => .error .indexError
          | fc :: _ => .ok fc) := by
    intro ws hws
    simp only [buildFrequencyFilter, hprops, hname, hinfo, htype, hop, hws,
      buildFilters_eq fname pt op hop ws, List.length_map]
  refine ⟨?_, ?_, ?_, ?_⟩
  · intro v hv
    rw [hbf [v] (hvs.trans hv)]
    norm_num
  · intro hlen
    rw [hbf vs hvs, if_pos (by omega)]
  · intro h1
    rcases lookupStr_cases pt op hop with ⟨ha, hb⟩ | ⟨ha, hb⟩ | ⟨ha, hb⟩ <;>
      simp_all
  · intro h1
    rcases lookupStr_cases pt op hop with ⟨ha, hb⟩ | ⟨ha, hb⟩ | ⟨ha, hb⟩ <;>
      simp_all

/-- Closed instance of `frequency_filter_shape`: a text-typed field with the
two values A, B gives an OR of two contains-conditions. -/
theorem frequency_filter_shape_witness :
    lookupStr filterTypeMap "rich_text" = some "contains" ∧
    cfgTwoValues.FREQUENCY_STATUS = ["A", "B"] ∧
    buildFrequencyFilter cfgTwoValues schemaRichText =
      .ok (.obj [("or", .arr [condShape "freq" "rich_text" "contains" "A",
                              condShape "freq" "rich_text" "contains" "B"])]) :=
  ⟨rfl, rfl,
   (frequency_filter_shape cfgTwoValues schemaRichText _ _ "freq" "rich_text"
      "contains" ["A", "B"] rfl rfl rfl rfl rfl rfl).2.1 (by norm_num)⟩

/-- C7: when any required setting is absent or empty, configuration loading
raises an error listing the message of every missing required setting, and
the whole program terminates with that configuration error independently of
the remote — so before any network call. -/
theorem missing_config_reported (env : String → Option String)
    (hmiss : requiredFields.filter
      (fun kv => !(configOf env).truthyAt kv.1) ≠ []) :
    loadConfig env = .error (String.intercalate "\n"
      ((requiredFields.filter
        (fun kv => !(configOf env).truthyAt kv.1)).map Prod.snd)) ∧
    (∀ kv ∈ requiredFields, (configOf env).truthyAt kv.1 = false →
      kv.2 ∈ (requiredFields.filter
        (fun kv => !(configOf env).truthyAt kv.1)).map Prod.snd) ∧
    (∀ schema remote now fuel, mainRun env schema remote now fuel =
      .configError (String.intercalate "\n"
        ((requiredFields.filter
          (fun kv => !(configOf env).truthyAt kv.1)).map Prod.snd))) := by
  have h1 : loadConfig env = .error (String.intercalate "\n"
      ((requiredFields.filter
        (fun kv => !(configOf env).truthyAt kv.1)).map Prod.snd)) := by
    simp only [loadConfig]
    rw [if_neg]
    simp only [List.isEmpty_iff]
    exact hmiss
  refine ⟨h1, ?_, ?_⟩
  · intro kv hkv hfalse
    exact List.mem_map_of_mem Prod.snd
      (List.mem_filter.2 ⟨hkv, by simp [hfalse]⟩)
  · intro schema remote now fuel
    simp only [mainRun, h1]

/-- Closed instance of `missing_config_reported` at the empty environment:
all five messages are joined into the error. -/
theorem missing_config_reported_witness :
    requiredFields.filter
      (fun kv => !(configOf envEmpty).truthyAt kv.1) ≠ [] ∧
    loadConfig envEmpty = .error
      ("必须配置API密钥\n必须配置数据库ID\n必须配置频率状态\n必须配置状态列\n必须配置目标状态") :=
  ⟨by decide, (missing_config_reported envEmpty (by decide)).1⟩

/-- C8 (code bug): title extraction returns the placeholder when the title
property is absent, but a present-and-empty title list raises `IndexError`
instead of the placeholder the spec promises; the error escapes the
per-record handler and aborts the whole run. -/
theorem empty_title_index_error :
    getPageTitle (Json.obj [("properties", Json.obj [])]) = .ok (.str "无标题") ∧
    getPageTitle pageEmptyTitle = .error .indexError ∧
    batchProcessTasks cfgEmptyTitle schemaFreqSelect remoteOnePage "2026-10-12" 1 =
      .aborted .indexError [none] [] ["流程中断: list index out of range"] :=
  ⟨rfl, rfl, rfl⟩

/-! Helper lemma: a successful `loadConfig` returns exactly the
environment-derived configuration. -/

theorem loadConfig_ok_eq (env : String → Option String) (cfg : Config)
    (h : loadConfig env = .ok cfg) : cfg = configOf env := by
  simp only [loadConfig] at h
  split at h
  · exact (Except.ok.inj h).symm
  · exact Except.noConfusion h

/-- C9 (amended): the frequency field name is optional only for configuration
loading — loading succeeds without it, but the filter builder then subscripts
the schema's property table with the absent name (Python `None`), raising a
`KeyError` that aborts the run fatally before any record is processed. -/
theorem frequency_name_optional_amended (env : String → Option String)
    (schema props : Json) (remote : Remote) (now : String) (fuel : Nat)
    (cfg : Config)
    (hload : loadConfig env = .ok cfg)
    (hfn : env "FREQUENCY_NAME" = none)
    (hprops : dictGetE schema "properties" = .ok props) :
    mainRun env schema remote now fuel =
      .run (.aborted (.keyError "None") [] []
        ["流程中断: " ++ pyErrMsg (.keyError "None")]) := by
  have hc := loadConfig_ok_eq env cfg hload
  subst hc
  simp only [mainRun, hload, batchProcessTasks, buildFrequencyFilter, hprops,
    configOf, hfn]

/-- C9 counterexample: with every required setting present but the frequency
field name omitted, configuration loading succeeds, yet the run aborts
fatally with the `KeyError` caused by that omission — refuting that the run
proceeds. -/
theorem frequency_name_omitted_aborts :
    loadConfig envOmit = .ok (configOf envOmit) ∧
    envOmit "FREQUENCY_NAME" = none ∧
    mainRun envOmit schemaTiny remoteIdle "2026-10-12" 3 =
      .run (.aborted (.keyError "None") [] [] ["流程中断: \x27None\x27"]) :=
  ⟨rfl, rfl, rfl⟩

/-- Closed instance of `frequency_name_optional_amended` at the fixture
environment. -/
theorem frequency_name_optional_amended_witness :
    envOmit "FREQUENCY_NAME" = none ∧
    mainRun envOmit schemaTiny remoteIdle "2026-10-12" 3 =
      .run (.aborted (.keyError "None") [] []
        ["流程中断: " ++ pyErrMsg (.keyError "None")]) :=
  ⟨rfl, frequency_name_optional_amended envOmit schemaTiny (.obj []) remoteIdle
    "2026-10-12" 3 (configOf envOmit) rfl rfl rfl⟩

/-! Helper lemmas about the prepared payload and the page-draining loop. -/

theorem prepareUpdateData_shape (cfg : Config) (schema : Json) (now : String)
    (page v : Json) (h : prepareUpdateData cfg schema now page = .ok v) :
    ∃ entries pid title url,
      statusProps schema cfg.TARGET_STATUS cfg.STATUS_COLUMNS = .ok entries ∧
      getPageTitle page = .ok title ∧
      jGetD page "url" (.str "") = .ok url ∧
      v = Json.obj [("page_id", pid),
        ("properties", .obj (updateProps cfg now entries)),
        ("metadata", Json.obj [("title", title), ("url", url)])] := by
  unfold prepareUpdateData at h
  cases hsp : statusProps schema cfg.TARGET_STATUS cfg.STATUS_COLUMNS with
  | error e => simp only [hsp] at h; exact Except.noConfusion h
  | ok entries =>
    simp only [hsp] at h
    cases hid : dictGetE page "id" with
    | error e => simp only [hid] at h; exact Except.noConfusion h
    | ok pid =>
      simp only [hid] at h
      cases ht : getPageTitle page with
      | error e => simp only [ht] at h; exact Except.noConfusion h
      | ok title =>
        simp only [ht] at h
        cases hu : jGetD page "url" (.str "") with
        | error e => simp only [hu] at h; exact Except.noConfusion h
        | ok url =>
          simp only [hu] at h
          exact ⟨entries, pid, title, url, rfl, rfl, rfl, (Except.ok.inj h).symm⟩

theorem prep_meta (cfg : Config) (schema : Json) (now : String) (page v : Json)
    (h : prepareUpdateData cfg schema now page = .ok v) :
    jGet2 v "metadata" "title" = .ok (metaTitle v) ∧
    jGet2 v "metadata" "url" = .ok (metaUrl v) ∧
    metaUrl v = pageUrl page := by
  obtain ⟨entries, pid, title, url, hsp, ht, hu, rfl⟩ :=
    prepareUpdateData_shape cfg schema now page v h
  refine ⟨rfl, rfl, ?_⟩
  have h1 : metaUrl (Json.obj [("page_id", pid),
      ("properties", .obj (updateProps cfg now entries)),
      ("metadata", Json.obj [("title", title), ("url", url)])]) = url := rfl
  rw [h1]
  simp only [pageUrl, hu]

theorem drainPage_ok (upd : Json → Except ApiErr Unit)
    (prep : Json → Except PyErr Json) (pl : Json → Json) (rs : List Json)
    (hprep : ∀ r ∈ rs, prep r = .ok (pl r))
    (hmeta : ∀ r ∈ rs,
      jGet2 (pl r) "metadata" "title" = .ok (metaTitle (pl r)) ∧
      jGet2 (pl r) "metadata" "url" = .ok (metaUrl (pl r))) :
    ∀ s calls log, drainPage upd prep rs s calls log =
      .ok (s + rs.countP (fun r => exOk (upd (pl r))),
           calls ++ rs.map pl, log ++ rs.map (recLine upd pl)) := by
  induction rs with
  | nil => intro s calls log; simp [drainPage]
  | cons r rest ih =>
    intro s calls log
    have hp := hprep r (List.mem_cons_self r rest)
    have hm := hmeta r (List.mem_cons_self r rest)
    have ihr := ih (fun x hx => hprep x (List.mem_cons_of_mem r hx))
                   (fun x hx => hmeta x (List.mem_cons_of_mem r hx))
    cases hu : upd (pl r) with
    | ok u =>
      simp only [drainPage, hp, hu, hm.1, ihr]
      simp [List.countP_cons, exOk, hu, recLine, List.append_assoc,
        Nat.add_comm, Nat.add_assoc, Nat.add_left_comm]
    | error e =>
      simp only [drainPage, hp, hu, hm.2, ihr]
      simp [List.countP_cons, exOk, hu, recLine, List.append_assoc]

theorem singlePage_run (cfg : Config) (schema : Json) (now : String)
    (remote : Remote) (rs : List Json) (nc : Option String) (fuel : Nat)
    (f : Json) (pl : Json → Json)
    (hfilter : buildFrequencyFilter cfg schema = .ok f)
    (hq : remote.query none = ⟨rs, false, nc⟩)
    (hprep : ∀ r ∈ rs, prepareUpdateData cfg schema now r = .ok (pl r))
    (hfuel : 1 ≤ fuel) :
    batchProcessTasks cfg schema remote now fuel = .finished
      ⟨rs.length, rs.countP (fun r => exOk (remote.update (pl r))),
       [none], rs.map pl,
       rs.map (recLine remote.update pl) ++
         [summaryLine rs.length
           (rs.countP (fun r => exOk (remote.update (pl r))))]⟩ := by
  obtain ⟨n, rfl⟩ : ∃ n, fuel = n + 1 := ⟨fuel - 1, by omega⟩
  have hmeta : ∀ r ∈ rs,
      jGet2 (pl r) "metadata" "title" = .ok (metaTitle (pl r)) ∧
      jGet2 (pl r) "metadata" "url" = .ok (metaUrl (pl r)) :=
    fun r hr => ⟨(prep_meta cfg schema now r (pl r) (hprep r hr)).1,
                 (prep_meta cfg schema now r (pl r) (hprep r hr)).2.1⟩
  have hdr := drainPage_ok remote.update (prepareUpdateData cfg schema now)
    pl rs hprep hmeta 0 [] []
  simp only [batchProcessTasks, hfilter, batchLoop, hq, hdr]
  simp

/-- C1: on a run whose page drains normally, a record whose remote update
fails with an API error is logged with the record's URL and the error
detail, does not increment the success counter while still counting toward
the total, does not abort the run, and the final summary reports the failure
tally as total minus success. -/
theorem update_failure_recoverable (cfg : Config) (schema : Json)
    (now : String) (remote : Remote) (rs : List Json) (nc : Option String)
    (fuel : Nat) (f : Json) (pl : Json → Json)
    (hfilter : buildFrequencyFilter cfg schema = .ok f)
    (hq : remote.query none = ⟨rs, false, nc⟩)
    (hprep : ∀ r ∈ rs, prepareUpdateData cfg schema now r = .ok (pl r))
    (hfuel : 1 ≤ fuel) :
    ∃ stats, batchProcessTasks cfg schema remote now fuel = .finished stats ∧
      stats.total = rs.length ∧
      stats.success = rs.countP (fun r => exOk (remote.update (pl r))) ∧
      (∀ r ∈ rs, ∀ e, remote.update (pl r) = .error e →
        ("更新失败 " ++ fmt (metaUrl (pl r)) ++ ": " ++ e.body) ∈ stats.log) ∧
      (∀ r ∈ rs, metaUrl (pl r) = pageUrl r) ∧
      stats.log = rs.map (recLine remote.update pl) ++
        [summaryLine rs.length
          (rs.countP (fun r => exOk (remote.update (pl r))))] := by
  refine ⟨_, singlePage_run cfg schema now remote rs nc fuel f pl hfilter hq
    hprep hfuel, rfl, rfl, ?_, ?_, rfl⟩
  · intro r hr e he
    apply List.mem_append_left
    refine List.mem_map.2 ⟨r, hr, ?_⟩
    simp [recLine, he]
  · intro r hr
    exact (prep_meta cfg schema now r (pl r) (hprep r hr)).2.2

/-- Closed instance of `update_failure_recoverable`: one page of two records,
the remote rejecting the second. -/
theorem update_failure_recoverable_witness :
    remoteTwoRecords.update (plFull pageBad) = .error ⟨"boom"⟩ ∧
    remoteTwoRecords.query none = ⟨[pageGood, pageBad], false, none⟩ ∧
    (∃ stats,
      batchProcessTasks cfgFull schemaFull remoteTwoRecords "T0" 1 =
        .finished stats ∧
      stats.total = ([pageGood, pageBad] : List Json).length ∧
      stats.success = ([pageGood, pageBad] : List Json).countP
        (fun r => exOk (remoteTwoRecords.update (plFull r))) ∧
      (∀ r ∈ ([pageGood, pageBad] : List Json), ∀ e,
        remoteTwoRecords.update (plFull r) = .error e →
        ("更新失败 " ++ fmt (metaUrl (plFull r)) ++ ": " ++ e.body) ∈ stats.log) ∧
      (∀ r ∈ ([pageGood, pageBad] : List Json), metaUrl (plFull r) = pageUrl r) ∧
      stats.log = ([pageGood, pageBad] : List Json).map
          (recLine remoteTwoRecords.update plFull) ++
        [summaryLine ([pageGood, pageBad] : List Json).length
          (([pageGood, pageBad] : List Json).countP
            (fun r => exOk (remoteTwoRecords.update (plFull r))))]) :=
  ⟨rfl, rfl,
   update_failure_recoverable cfgFull schemaFull "T0" remoteTwoRecords
     [pageGood, pageBad] none 1 _ plFull rfl rfl
     (by intro r hr; fin_cases hr <;> rfl) (by omega)⟩

/-- C2: a two-page result set (100 records with continuation at cursor `c`,
then 37 records with the continuation flag false) makes the loop issue
exactly the two fetches — the second with cursor `c` — terminate, and
accumulate a total of 137. -/
theorem pagination_two_pages (cfg : Config) (schema : Json) (now : String)
    (remote : Remote) (c : String) (rs1 rs2 : List Json) (nc : Option String)
    (fuel : Nat) (f : Json) (pl : Json → Json)
    (hfilter : buildFrequencyFilter cfg schema = .ok f)
    (hq1 : remote.query none = ⟨rs1, true, some c⟩)
    (hq2 : remote.query (some c) = ⟨rs2, false, nc⟩)
    (h1 : rs1.length = 100) (h2 : rs2.length = 37)
    (hprep : ∀ r ∈ rs1 ++ rs2, prepareUpdateData cfg schema now r = .ok (pl r))
    (hfuel : 2 ≤ fuel) :
    ∃ stats, batchProcessTasks cfg schema remote now fuel = .finished stats ∧
      stats.fetches = [none, some c] ∧ stats.total = 137 := by
  obtain ⟨n, rfl⟩ : ∃ n, fuel = n + 2 := ⟨fuel - 2, by omega⟩
  have hprep1 : ∀ r ∈ rs1, prepareUpdateData cfg schema now r = .ok (pl r) :=
    fun r hr => hprep r (List.mem_append_left rs2 hr)
  have hprep2 : ∀ r ∈ rs2, prepareUpdateData cfg schema now r = .ok (pl r) :=
    fun r hr => hprep r (List.mem_append_right rs1 hr)
  have hmeta1 : ∀ r ∈ rs1,
      jGet2 (pl r) "metadata" "title" = .ok (metaTitle (pl r)) ∧
      jGet2 (pl r) "metadata" "url" = .ok (metaUrl (pl r)) :=
    fun r hr => ⟨(prep_meta cfg schema now r (pl r) (hprep1 r hr)).1,
                 (prep_meta cfg schema now r (pl r) (hprep1 r hr)).2.1⟩
  have hmeta2 : ∀ r ∈ rs2,
      jGet2 (pl r) "metadata" "title" = .ok (metaTitle (pl r)) ∧
      jGet2 (pl r) "metadata" "url" = .ok (metaUrl (pl r)) :=
    fun r hr => ⟨(prep_meta cfg schema now r (pl r) (hprep2 r hr)).1,
                 (prep_meta cfg schema now r (pl r) (hprep2 r hr)).2.1⟩
  have hdr1 := drainPage_ok remote.update (prepareUpdateData cfg schema now)
    pl rs1 hprep1 hmeta1 0 [] []
  have hdr2 := drainPage_ok remote.update (prepareUpdateData cfg schema now)
    pl rs2 hprep2 hmeta2
    (0 + rs1.countP (fun r => exOk (remote.update (pl r))))
    ([] ++ rs1.map pl) ([] ++ rs1.map (recLine remote.update pl))
  have hrun : batchProcessTasks cfg schema remote now (n + 1 + 1) = .finished
      ⟨0 + rs1.length + rs2.length,
       0 + rs1.countP (fun r => exOk (remote.update (pl r))) +
         rs2.countP (fun r => exOk (remote.update (pl r))),
       [] ++ [none] ++ [some c],
       ([] ++ rs1.map pl) ++ rs2.map pl,
       (([] ++ rs1.map (recLine remote.update pl)) ++
          rs2.map (recLine remote.update pl)) ++
         [summaryLine (0 + rs1.length + rs2.length)
           (0 + rs1.countP (fun r => exOk (remote.update (pl r))) +
             rs2.countP (fun r => exOk (remote.update (pl r))))]⟩ := by
    simp only [batchProcessTasks, hfilter, batchLoop, hq1, hdr1]
    simp only [batchLoop, hq2, hdr2]
    simp
  refine ⟨_, hrun, by simp, ?_⟩
  show 0 + rs1.length + rs2.length = 137
  omega

/-- Closed instance of `pagination_two_pages` at the paged fixture remote. -/
theorem pagination_two_pages_witness :
    remotePaged.query none = ⟨List.replicate 100 pageGood, true, some "C1"⟩ ∧
    remotePaged.query (some "C1") = ⟨List.replicate 37 pageGood, false, none⟩ ∧
    (∃ stats,
      batchProcessTasks cfgFull schemaFull remotePaged "T0" 2 =
        .finished stats ∧
      stats.fetches = [none, some "C1"] ∧ stats.total = 137) :=
  ⟨rfl, rfl,
   pagination_two_pages cfgFull schemaFull "T0" remotePaged "C1"
     (List.replicate 100 pageGood) (List.replicate 37 pageGood) none 2 _ plFull
     rfl rfl rfl (by simp) (by simp)
     (by
       intro r hr
       rcases List.mem_append.mp hr with h | h <;>
         rw [List.eq_of_mem_replicate h] <;> rfl)
     (by omega)⟩

/-- C10: every argument mapping passed to the remote update operation is
exactly the prepared update payload, which besides the record id and the
properties mapping carries the extra `metadata` entry (title and URL) — the
metadata is not stripped before the call. -/
theorem update_call_payload (cfg : Config) (schema : Json) (now : String)
    (remote : Remote) (rs : List Json) (nc : Option String) (fuel : Nat)
    (f : Json) (pl : Json → Json)
    (hfilter : buildFrequencyFilter cfg schema = .ok f)
    (hq : remote.query none = ⟨rs, false, nc⟩)
    (hprep : ∀ r ∈ rs, prepareUpdateData cfg schema now r = .ok (pl r))
    (hfuel : 1 ≤ fuel) :
    ∃ stats, batchProcessTasks cfg schema remote now fuel = .finished stats ∧
      stats.updateCalls = rs.map pl ∧
      (∀ r ∈ rs, prepareUpdateData cfg schema now r = .ok (pl r)) ∧
      (∀ r ∈ rs, ∃ pid props title url,
        pl r = Json.obj [("page_id", pid), ("properties", props),
          ("metadata", Json.obj [("title", title), ("url", url)])]) := by
  refine ⟨_, singlePage_run cfg schema now remote rs nc fuel f pl hfilter hq
    hprep hfuel, rfl, hprep, ?_⟩
  intro r hr
  obtain ⟨entries, pid, title, url, hsp, ht, hu, hv⟩ :=
    prepareUpdateData_shape cfg schema now r (pl r) (hprep r hr)
  exact ⟨pid, .obj (updateProps cfg now entries), title, url, hv⟩

/-- Closed instance of `update_call_payload` at the two-record fixture. -/
theorem update_call_payload_witness :
    (∀ r ∈ ([pageGood, pageBad] : List Json),
      prepareUpdateData cfgFull schemaFull "T0" r = .ok (plFull r)) ∧
    (∃ stats,
      batchProcessTasks cfgFull schemaFull remoteTwoRecords "T0" 1 =
        .finished stats ∧
      stats.updateCalls = ([pageGood, pageBad] : List Json).map plFull ∧
      (∀ r ∈ ([pageGood, pageBad] : List Json),
        prepareUpdateData cfgFull schemaFull "T0" r = .ok (plFull r)) ∧
      (∀ r ∈ ([pageGood, pageBad] : List Json), ∃ pid props title url,
        plFull r = Json.obj [("page_id", pid), ("properties", props),
          ("metadata", Json.obj [("title", title), ("url", url)])])) :=
  ⟨by intro r hr; fin_cases hr <;> rfl,
   update_call_payload cfgFull schemaFull "T0" remoteTwoRecords
     [pageGood, pageBad] none 1 _ plFull rfl rfl
     (by intro r hr; fin_cases hr <;> rfl) (by omega)⟩

end NotionQM
